import Mathlib

/-!
Shallow embedding of the Express backend in `backend/server.js` of the
devsecops-demo repository: the SQLite-backed user/task store, the
`POST /api/login` handler (including its string-interpolated SQL query),
the `GET /api/users`, `GET /api/tasks/:id`, `POST /api/tasks` and
`GET /api/admin/delete-user/:id` handlers, the jsonwebtoken sign/verify
semantics used by the login route, and the error-handling middleware.

External collaborators are modelled by their documented contracts:
bcryptjs (`compareSync p h` succeeds exactly when `h` was derived from `p`;
salt randomness is irrelevant to control flow and elided), jsonwebtoken
(`expiresIn: 24h` sets `exp = iat + 86400` seconds; verification checks the
signature and then rejects once `now >= exp`), and the SQLite expression
evaluator for the subset of SQL that the interpolated login query can
produce (identifiers, single-quoted string literals with `''` escapes,
`=`, `AND`, `OR`); a condition outside this subset is a database error,
which the route surfaces as HTTP 500.
-/

/-- Model of a JSON value as produced by `res.json`. -/
inductive JValue where
  | null
  | bool (b : Bool)
  | num (n : Int)
  | str (s : String)
  | arr (elems : List JValue)
  | obj (fields : List (String × JValue))

/-- Top-level field lookup in a JSON object. -/
def jObjGet (v : JValue) (k : String) : Option JValue :=
  match v with
  | .obj fields => (fields.find? (fun p => p.1 == k)).map (fun p => p.2)
  | _ => none

/-- Top-level keys of a JSON object (empty for non-objects). -/
def objKeys (v : JValue) : List String :=
  match v with
  | .obj fields => fields.map (fun p => p.1)
  | _ => []

/-- Whether a JSON object has a given top-level key. -/
def jHasKey (v : JValue) (k : String) : Bool :=
  (objKeys v).contains k

/-- Elements of a JSON array (empty for non-arrays). -/
def arrElems (v : JValue) : List JValue :=
  match v with
  | .arr elems => elems
  | _ => []

/-- An HTTP response: status code plus JSON body. -/
structure Response where
  status : Nat
  body : JValue

/-- An incoming HTTP request, reduced to its headers; none of the embedded
handlers ever reads them (the code has no authentication middleware), which
is exactly what the authorization claims are about. -/
structure Request where
  headers : List (String × String)

/-- A row of the `users` table (id, username, password hash, email, role). -/
structure User where
  id : Nat
  username : String
  password : String
  email : String
  role : String
deriving DecidableEq

/-- A row of the `tasks` table. Column values that come straight from a
request body are kept as raw JSON values, mirroring SQLite's dynamic typing
of bound parameters. -/
structure TaskRow where
  id : Nat
  user_id : JValue
  title : JValue
  description : JValue
  completed : JValue
  created_at : String

/-- Model of `bcrypt.hashSync`: an ideal one-way hash, deterministic in the
model (salt randomness does not affect any control flow in the server). -/
def bcryptHashSync (plaintext : String) : String :=
  "$2a$10$" ++ plaintext

/-- Model of `bcrypt.compareSync plaintext hash`: true exactly when `hash`
was derived from `plaintext`. -/
def bcryptCompareSync (plaintext hash : String) : Bool :=
  hash == bcryptHashSync plaintext

/-- Line 12 of server.js: `process.env.JWT_SECRET || 'super-secret-key-12345'`.
A JavaScript `||` takes the fallback on every falsy value, so an unset or
empty environment variable silently yields the compile-time default. -/
def jwtSecretConfig (envJwtSecret : Option String) : String :=
  match envJwtSecret with
  | some s => if s == "" then "super-secret-key-12345" else s
  | none => "super-secret-key-12345"

/-- The seeded password hash (lines 46-47): `bcrypt.hashSync('password123', 10)`. -/
def hashedPassword : String := bcryptHashSync "password123"

/-- The two rows inserted at startup (lines 48-50). -/
def seededUsers : List User :=
  [⟨1, "admin", hashedPassword, "admin@example.com", "admin"⟩,
   ⟨2, "user1", hashedPassword, "user1@example.com", "user"⟩]

/-- A signed JWT as produced by `jwt.sign(payload, JWT_SECRET, {expiresIn: '24h'})`
(lines 71-75): payload fields id, username, role, the issued-at and expiry
timestamps (seconds), and the signature, modelled as the signing key. -/
structure Token where
  id : Nat
  username : String
  role : String
  iat : Nat
  exp : Nat
  sig : String
deriving DecidableEq

/-- Model of `jwt.sign({id, username, role}, secret, {expiresIn: '24h'})`:
jsonwebtoken sets `iat` to the current time and `exp = iat + 86400`. -/
def jwtSign (id : Nat) (username role secret : String) (now : Nat) : Token :=
  ⟨id, username, role, now, now + 86400, secret⟩

/-- Model of `jwt.verify(token, secret)` evaluated at time `now`:
jsonwebtoken first validates the signature, then rejects with
TokenExpiredError once `now >= exp`. -/
def jwtVerify (secret : String) (t : Token) (now : Nat) : Except String Token :=
  if t.sig == secret then
    if t.exp ≤ now then Except.error "jwt expired" else Except.ok t
  else Except.error "invalid signature"

/-- Serialization of a token into the string placed in the response body. -/
def tokenStr (t : Token) : String :=
  String.intercalate "." [toString t.id, t.username, t.role, toString t.iat, toString t.exp, t.sig]

/-- Projection used by `GET /api/users` (line 97): the query selects only
`id, username, email, role`. -/
def userPublicJson (u : User) : JValue :=
  .obj [("id", .num (Int.ofNat u.id)), ("username", .str u.username),
        ("email", .str u.email), ("role", .str u.role)]

/-- Lines 95-103, `GET /api/users`: no authentication check, the request is
ignored entirely; the constant parameterized query cannot fail, so the
handler answers 200 with the projected rows. -/
def getUsersRoute (_req : Request) (users : List User) : Response :=
  ⟨200, .arr (users.map userPublicJson)⟩

/-- JSON of a full task row, as returned by `SELECT * FROM tasks`. -/
def taskJson (t : TaskRow) : JValue :=
  .obj [("id", .num (Int.ofNat t.id)), ("user_id", t.user_id), ("title", t.title),
        ("description", t.description), ("completed", t.completed),
        ("created_at", .str t.created_at)]

/-- Lines 121-134, `GET /api/tasks/:id`: parameterized lookup by id, no
ownership or role check of any kind; 404 when absent, else 200 with every
column of the row. -/
def getTaskRoute (_req : Request) (idParam : String) (tasks : List TaskRow) : Response :=
  match tasks.find? (fun t => toString t.id == idParam) with
  | none => ⟨404, .obj [("error", .str "Task not found")]⟩
  | some t => ⟨200, taskJson t⟩

/-- Lines 174-184, `GET /api/admin/delete-user/:id`: no authentication
check; deletes the row and answers 200. -/
def deleteUserRoute (_req : Request) (idParam : String) (users : List User) :
    List User × Response :=
  (users.filter (fun u => !(toString u.id == idParam)),
   ⟨200, .obj [("message", .str "User deleted")]⟩)

/-- A JavaScript Error object as seen by the error middleware. -/
structure JsError where
  message : String
  stack : String

/-- Lines 192-198, the error-handling middleware: responds 500 with the
error message and the full stack trace in the body. -/
def errorHandler (e : JsError) : Response :=
  ⟨500, .obj [("error", .str e.message), ("stack", .str e.stack)]⟩

/-- The single-quote character, written by code point to keep the SQL
lexer readable. -/
def sqChar : Char := Char.ofNat 39

/-- A single-quote as a one-character string. -/
def sqStr : String := String.mk [sqChar]

/-- Tokens of the SQL expression subset reachable from the interpolated
login query. -/
inductive SqlTok where
  | ident (s : String)
  | strLit (s : String)
  | eqTok
deriving DecidableEq

/-- Atoms of a SQL comparison over a `users` row: the `username` column or
a string literal. -/
inductive SqlAtom where
  | col
  | lit (s : String)
deriving DecidableEq

/-- Boolean conditions of the modelled SQL subset. -/
inductive SqlCond where
  | cmp (a b : SqlAtom)
  | conj (l r : SqlCond)
  | disj (l r : SqlCond)
deriving DecidableEq

/-- SQLite lexing of a single-quoted string literal body: `''` is an
escaped quote, a lone quote closes the literal, a missing closing quote is
a syntax error. -/
def lexStrLit : List Char → String → Option (String × List Char)
  | [], _ => none
  | c :: rest, acc =>
    if c == sqChar then
      match rest with
      | c2 :: rest2 =>
        if c2 == sqChar then lexStrLit rest2 (acc.push c) else some (acc, rest)
      | [] => some (acc, rest)
    else lexStrLit rest (acc.push c)

/-- Characters allowed in a SQL identifier. -/
def isIdentChar (c : Char) : Bool := c.isAlphanum || c == '_'

/-- Greedily read an identifier. -/
def takeIdent : List Char → String → String × List Char
  | [], acc => (acc, [])
  | c :: rest, acc =>
    if isIdentChar c then takeIdent rest (acc.push c) else (acc, c :: rest)

/-- Tokenizer for the modelled SQL subset; `none` is a syntax error. The
fuel argument only bounds recursion and is always called with more fuel
than there are input characters. -/
def tokenize : Nat → List Char → Option (List SqlTok)
  | 0, _ => none
  | _, [] => some []
  | fuel + 1, c :: rest =>
    if c == ' ' then tokenize fuel rest
    else if c == '=' then
      match tokenize fuel rest with
      | none => none
      | some ts => some (SqlTok.eqTok :: ts)
    else if c == sqChar then
      match lexStrLit rest "" with
      | none => none
      | some (s, rest2) =>
        match tokenize fuel rest2 with
        | none => none
        | some ts => some (SqlTok.strLit s :: ts)
    else if isIdentChar c then
      match takeIdent rest (String.mk [c]) with
      | (s, rest2) =>
        match tokenize fuel rest2 with
        | none => none
        | some ts => some (SqlTok.ident s :: ts)
    else none

/-- An atom of a comparison; the only column in scope of the login query's
WHERE clause that the model accepts is `username` (any other bare
identifier is an unknown-column error). -/
def parseAtom : SqlTok → Option SqlAtom
  | .ident s => if s == "username" then some SqlAtom.col else none
  | .strLit s => some (SqlAtom.lit s)
  | .eqTok => none

/-- Parse one `atom = atom` comparison. -/
def parseCmp : List SqlTok → Option (SqlCond × List SqlTok)
  | a :: SqlTok.eqTok :: b :: rest =>
    match parseAtom a, parseAtom b with
    | some x, some y => some (SqlCond.cmp x y, rest)
    | _, _ => none
  | _ => none

/-- ASCII uppercase of one character. -/
def upperChar (c : Char) : Char :=
  if 97 ≤ c.toNat && c.toNat ≤ 122 then Char.ofNat (c.toNat - 32) else c

/-- ASCII uppercase of a string. -/
def upperStr (s : String) : String :=
  String.mk (s.data.map upperChar)

/-- Keyword test, case-insensitive as in SQLite. -/
def isKw (t : SqlTok) (kw : String) : Bool :=
  match t with
  | .ident s => upperStr s == kw
  | _ => false

/-- Parse a conjunction of comparisons. -/
def parseConj (fuel : Nat) (ts : List SqlTok) : Option (SqlCond × List SqlTok) :=
  match fuel with
  | 0 => none
  | fuel + 1 =>
    match parseCmp ts with
    | none => none
    | some (c, rest) =>
      match rest with
      | [] => some (c, [])
      | t :: rest2 =>
        if isKw t "AND" then
          match parseConj fuel rest2 with
          | none => none
          | some (r, rest3) => some (SqlCond.conj c r, rest3)
        else some (c, rest)

/-- Parse a disjunction of conjunctions (SQL precedence: AND binds tighter
than OR). -/
def parseDisj (fuel : Nat) (ts : List SqlTok) : Option (SqlCond × List SqlTok) :=
  match fuel with
  | 0 => none
  | fuel + 1 =>
    match parseConj fuel ts with
    | none => none
    | some (c, rest) =>
      match rest with
      | [] => some (c, [])
      | t :: rest2 =>
        if isKw t "OR" then
          match parseDisj fuel rest2 with
          | none => none
          | some (r, rest3) => some (SqlCond.disj c r, rest3)
        else some (c, rest)

/-- Parse a complete WHERE condition; any leftover tokens or lexing failure
is a SQL error. -/
def parseCond (s : String) : Option SqlCond :=
  match tokenize (s.length + 1) s.data with
  | none => none
  | some ts =>
    match parseDisj (ts.length + 1) ts with
    | some (c, []) => some c
    | _ => none

/-- Value of an atom at a `users` row. -/
def evalAtom (a : SqlAtom) (u : User) : String :=
  match a with
  | .col => u.username
  | .lit s => s

/-- Evaluate a condition at a `users` row. -/
def evalCond : SqlCond → User → Bool
  | .cmp a b, u => evalAtom a u == evalAtom b u
  | .conj l r, u => evalCond l u && evalCond r u
  | .disj l r, u => evalCond l u || evalCond r u

/-- Line 58: the WHERE clause of the interpolated login query,
`username = '<input>'` with the raw request body value spliced in. -/
def loginQueryCond (username : String) : String :=
  "username = " ++ sqStr ++ username ++ sqStr

/-- Model of `db.get` on the interpolated login query (lines 58-60): parse
the condition; on a SQL error report a database error, otherwise return the
first matching row in table order. -/
def dbGetUser (username : String) (users : List User) : Except String (Option User) :=
  match parseCond (loginQueryCond username) with
  | none => Except.error "SQL logic error"
  | some c => Except.ok (users.find? (fun u => evalCond c u))

/-- Observable outcome of the login route: the HTTP response, the token it
issued (if any), and how many bcrypt comparisons ran on the way — the
response and the token are what the client sees, the comparison count is
the timing-relevant event count. -/
structure LoginResult where
  resp : Response
  issuedToken : Option Token
  hashCompares : Nat

/-- The uniform 401 body of both login failure branches (lines 66 and 89). -/
def invalidCredentialsBody : JValue :=
  .obj [("error", .str "Invalid credentials")]

/-- Lines 54-92, `POST /api/login`: run the interpolated query; a database
error is a 500, an empty result the 401 branch of line 66; otherwise
compare the submitted password against the stored hash — on success sign a
24h token and answer 200 with the token and a user object that includes
the password hash (line 85), on failure the 401 branch of line 89. -/
def login (username password : String) (users : List User) (secret : String)
    (now : Nat) : LoginResult :=
  match dbGetUser username users with
  | Except.error _ =>
    ⟨⟨500, .obj [("error", .str "Database error")]⟩, none, 0⟩
  | Except.ok none =>
    ⟨⟨401, invalidCredentialsBody⟩, none, 0⟩
  | Except.ok (some user) =>
    if bcryptCompareSync password user.password then
      let token := jwtSign user.id user.username user.role secret now
      ⟨⟨200, .obj [("token", .str (tokenStr token)),
                   ("user", .obj [("id", .num (Int.ofNat user.id)),
                                  ("username", .str user.username),
                                  ("email", .str user.email),
                                  ("role", .str user.role),
                                  ("password", .str user.password)])]⟩,
       some token, 1⟩
    else
      ⟨⟨401, invalidCredentialsBody⟩, none, 1⟩

/-- JavaScript truthiness of an optional body field (absent means
`undefined`, which is falsy). -/
def jsTruthy : Option JValue → Bool
  | none => false
  | some .null => false
  | some (.bool b) => b
  | some (.num n) => n != 0
  | some (.str s) => s != ""
  | some (.arr _) => true
  | some (.obj _) => true

/-- Line 143's `completed || 0`: the supplied value when truthy, else `0`. -/
def jsOrZero (v : Option JValue) : JValue :=
  if jsTruthy v then v.getD JValue.null else JValue.num 0

/-- Field lookup in a parsed JSON request body. -/
def jGet (body : List (String × JValue)) (k : String) : Option JValue :=
  (body.find? (fun p => p.1 == k)).map (fun p => p.2)

/-- The AUTOINCREMENT id the insert will receive. -/
def nextTaskId (tasks : List TaskRow) : Nat :=
  (tasks.map TaskRow.id).foldr max 0 + 1

/-- Observable outcome of task creation: the table afterwards, the row that
was inserted, and the HTTP response. -/
structure CreateTaskResult where
  newTasks : List TaskRow
  insertedRow : TaskRow
  resp : Response

/-- Lines 137-151, `POST /api/tasks`: the request's headers are never
consulted; the row is built from the body alone — `user_id`, `title` and
`description` are bound as given (absent fields bind as NULL), `completed`
goes through `completed || 0` — and the response echoes the new id. -/
def createTaskRoute (_req : Request) (body : List (String × JValue))
    (tasks : List TaskRow) (nowStr : String) : CreateTaskResult :=
  let row : TaskRow :=
    { id := nextTaskId tasks
      user_id := (jGet body "user_id").getD JValue.null
      title := (jGet body "title").getD JValue.null
      description := (jGet body "description").getD JValue.null
      completed := jsOrZero (jGet body "completed")
      created_at := nowStr }
  ⟨tasks ++ [row], row,
   ⟨200, .obj [("id", .num (Int.ofNat row.id)), ("message", .str "Task created")]⟩⟩

/-- The classic injection payload, one quote followed by OR 1=1, built
character-wise so the quotes are explicit. -/
def injUsername : String :=
  sqStr ++ " OR " ++ sqStr ++ "1" ++ sqStr ++ "=" ++ sqStr ++ "1"

/-- A concrete task row owned by user 1. -/
def adminTask : TaskRow :=
  ⟨1, JValue.num 1, JValue.str "own task", JValue.str "d", JValue.num 0, "2024-01-01"⟩

/-- A token issued to user1 (id 2, role user). -/
def user1Token : Token := jwtSign 2 "user1" "user" "k" 0

/-- The token the seeded admin obtains by logging in at time 0. -/
def adminToken : Token := jwtSign 1 "admin" "admin" "k" 0

/-- C1: the claim says no response body ever carries a password hash field
or a stack trace; in the code the successful login response's user object
has the extra `password` field holding the stored bcrypt hash (line 85),
and the error middleware's body carries the stack (line 196). -/
theorem passwordHashAndStackTraceExposed :
    (login "admin" "password123" seededUsers "k" 0).resp.status = 200 ∧
    (jObjGet (login "admin" "password123" seededUsers "k" 0).resp.body "user").map objKeys
      = some ["id", "username", "email", "role", "password"] ∧
    ((jObjGet (login "admin" "password123" seededUsers "k" 0).resp.body "user").bind
      (fun u => jObjGet u "password")) = some (JValue.str (bcryptHashSync "password123")) ∧
    jHasKey (errorHandler ⟨"boom", "Error: boom at server.js:1:1"⟩).body "stack" = true :=
  ⟨rfl, rfl, rfl, rfl⟩

/-- C2: the claim says the user listing and user deletion routes reject a
request without a valid bearer token with 401 before the handler runs; in
the code both handlers ignore the request's headers entirely, run, and
answer 200 — here with an arbitrary header list (in particular none). -/
theorem unauthenticatedRequestsReachHandlers (hdrs : List (String × String)) :
    (getUsersRoute ⟨hdrs⟩ seededUsers).status = 200 ∧
    (getUsersRoute ⟨hdrs⟩ seededUsers).body = JValue.arr (seededUsers.map userPublicJson) ∧
    (deleteUserRoute ⟨hdrs⟩ "2" seededUsers).2.status = 200 ∧
    (deleteUserRoute ⟨hdrs⟩ "2" seededUsers).1
      = [⟨1, "admin", hashedPassword, "admin@example.com", "admin"⟩] :=
  ⟨rfl, rfl, rfl, rfl⟩

/-- C3: the claim says login issues a token only when the store holds a
user with the submitted username whose hash verifies; the interpolated
query lets the payload `injUsername` (which is no stored username) log in
as the seeded admin with the admin's own password-check bypassed into the
admin row. -/
theorem loginSqlInjectionBypass :
    (seededUsers.all (fun u => !(u.username == injUsername))) = true ∧
    (login injUsername "password123" seededUsers "k" 0).resp.status = 200 ∧
    (login injUsername "password123" seededUsers "k" 0).issuedToken = some adminToken :=
  ⟨rfl, rfl, rfl⟩

/-- C4: the claim says reading a task with a valid unexpired token of a
non-owning non-admin subject answers 403; the code's task-read handler
never looks at the token and returns the task with 200. -/
theorem idorTaskReadNoOwnershipCheck :
    jwtVerify "k" user1Token 3600 = Except.ok user1Token ∧
    user1Token.id = 2 ∧ user1Token.role = "user" ∧
    adminTask.user_id = JValue.num 1 ∧
    getTaskRoute ⟨[("authorization", "Bearer " ++ tokenStr user1Token)]⟩ "1" [adminTask]
      = ⟨200, taskJson adminTask⟩ :=
  ⟨rfl, rfl, rfl, rfl, rfl⟩

/-- C5: both login failure branches — query ran, no row matched, and row
matched but the password hash does not verify — produce the identical
response, 401 with the `Invalid credentials` body. -/
theorem loginFailuresUniform (username password : String) (users : List User)
    (secret : String) (now : Nat)
    (h : dbGetUser username users = Except.ok none ∨
         ∃ u, dbGetUser username users = Except.ok (some u) ∧
              bcryptCompareSync password u.password = false) :
    (login username password users secret now).resp = ⟨401, invalidCredentialsBody⟩ := by
  rcases h with h | ⟨u, hu, hc⟩
  · simp [login, h]
  · simp [login, hu, hc]

/-- Witness for C5: the absent user `ghost` and the seeded admin with a
wrong password both get exactly 401 `Invalid credentials`. -/
theorem loginFailuresUniformWitness :
    (login "ghost" "pw" seededUsers "k" 0).resp = ⟨401, invalidCredentialsBody⟩ ∧
    (login "admin" "wrongpw" seededUsers "k" 0).resp = ⟨401, invalidCredentialsBody⟩ :=
  ⟨loginFailuresUniform "ghost" "pw" seededUsers "k" 0 (Or.inl rfl),
   loginFailuresUniform "admin" "wrongpw" seededUsers "k" 0
     (Or.inr ⟨⟨1, "admin", hashedPassword, "admin@example.com", "admin"⟩, rfl, rfl⟩)⟩

/-- C6: every token the login route issues carries the matched user's id
and role, is stamped `iat = now` and `exp = now + 86400` (the fixed 24h
TTL), and under the issuing key verification rejects it at every time
strictly past `exp` and accepts it at every time strictly before `exp`. -/
theorem loginTokenTtlAndVerify (username password : String) (users : List User)
    (secret : String) (now : Nat) (t : Token)
    (h : (login username password users secret now).issuedToken = some t) :
    t.iat = now ∧ t.exp = now + 86400 ∧
    (∃ u, dbGetUser username users = Except.ok (some u) ∧ t.id = u.id ∧ t.role = u.role) ∧
    (∀ n, t.exp < n → jwtVerify secret t n = Except.error "jwt expired") ∧
    (∀ n, n < t.exp → jwtVerify secret t n = Except.ok t) := by
  cases hget : dbGetUser username users with
  | error e => simp [login, hget] at h
  | ok o =>
    cases o with
    | none => simp [login, hget] at h
    | some u =>
      by_cases hc : bcryptCompareSync password u.password
      · simp only [login, hget, hc, if_pos, Option.some.injEq] at h
        subst h
        refine ⟨rfl, rfl, ⟨u, rfl, rfl, rfl⟩, ?_, ?_⟩
        · intro n hn
          have hle : (jwtSign u.id u.username u.role secret now).exp ≤ n := Nat.le_of_lt hn
          simp [jwtVerify, jwtSign] at hle ⊢
          omega
        · intro n hn
          have hlt : n < (jwtSign u.id u.username u.role secret now).exp := hn
          simp [jwtVerify, jwtSign] at hlt ⊢
          omega
      · simp [login, hget, hc] at h

/-- Witness for C6: the admin's login token at time 0 expires at 86400; it
verifies at 86399 and is rejected at 86401. -/
theorem loginTokenTtlAndVerifyWitness :
    (login "admin" "password123" seededUsers "k" 0).issuedToken = some adminToken ∧
    adminToken.exp = 0 + 86400 ∧
    jwtVerify "k" adminToken 86401 = Except.error "jwt expired" ∧
    jwtVerify "k" adminToken 86399 = Except.ok adminToken := by
  have h := loginTokenTtlAndVerify "admin" "password123" seededUsers "k" 0 adminToken rfl
  exact ⟨rfl, h.2.1, h.2.2.2.1 86401 (by decide), h.2.2.2.2 86399 (by decide)⟩

/-- C7: the claim says a missing signing key in the environment is a fatal
startup error and never silently replaced by a compile-time default; line
12 silently falls back to the hardcoded string, for an unset and even for
an empty environment variable. -/
theorem missingSecretFallsBackToDefault :
    jwtSecretConfig none = "super-secret-key-12345" ∧
    jwtSecretConfig (some "") = "super-secret-key-12345" :=
  ⟨rfl, rfl⟩

/-- C8: the claim says the absent-user path still performs a dummy hash
comparison; in the code the absent-user branch returns at once with zero
bcrypt comparisons, while the wrong-password path performs one. -/
theorem absentUserSkipsHashComparison :
    dbGetUser "ghost" seededUsers = Except.ok none ∧
    (login "ghost" "anything" seededUsers "k" 0).hashCompares = 0 ∧
    (login "ghost" "anything" seededUsers "k" 0).resp.status = 401 ∧
    (login "admin" "wrongpassword" seededUsers "k" 0).hashCompares = 1 :=
  ⟨rfl, rfl, rfl, rfl⟩

/-- C9: for every database state, every record the user-listing route
returns has exactly the keys id, username, email, role, and in particular
no password key, because the query projects only those four columns. -/
theorem usersListingProjectsOnlyPublicColumns (req : Request) (users : List User) :
    (getUsersRoute req users).status = 200 ∧
    ((arrElems (getUsersRoute req users).body).all
      (fun r => objKeys r == ["id", "username", "email", "role"] && !(jHasKey r "password")))
      = true := by
  refine ⟨rfl, ?_⟩
  induction users with
  | nil => rfl
  | cons u us ih =>
    simp only [getUsersRoute, arrElems, List.map_cons, List.all_cons] at ih ⊢
    rw [Bool.and_eq_true]
    exact ⟨rfl, ih⟩

/-- C10: the stored task's user_id is exactly the caller-supplied body
field, no identity is consulted (the request is arbitrary and unread), and
the stored completed flag is 0 whenever the supplied value is absent or
falsy. -/
theorem createTaskStoresCallerUserId (req : Request) (body : List (String × JValue))
    (tasks : List TaskRow) (nowStr : String) (v : JValue)
    (hv : jGet body "user_id" = some v) :
    (createTaskRoute req body tasks nowStr).insertedRow.user_id = v ∧
    (createTaskRoute req body tasks nowStr).newTasks
      = tasks ++ [(createTaskRoute req body tasks nowStr).insertedRow] ∧
    (jsTruthy (jGet body "completed") = false →
      (createTaskRoute req body tasks nowStr).insertedRow.completed = JValue.num 0) ∧
    (createTaskRoute req body tasks nowStr).resp.status = 200 := by
  refine ⟨?_, rfl, ?_, rfl⟩
  · simp [createTaskRoute, hv]
  · intro hfalse
    simp [createTaskRoute, jsOrZero, hfalse]

/-- Witness for C10: a body carrying user_id 7 and no completed field
stores user_id 7 and completed 0. -/
theorem createTaskStoresCallerUserIdWitness :
    (createTaskRoute ⟨[]⟩ [("user_id", JValue.num 7)] [] "now").insertedRow.user_id
      = JValue.num 7 ∧
    (createTaskRoute ⟨[]⟩ [("user_id", JValue.num 7)] [] "now").insertedRow.completed
      = JValue.num 0 := by
  have h := createTaskStoresCallerUserId ⟨[]⟩ [("user_id", JValue.num 7)] [] "now"
    (JValue.num 7) rfl
  exact ⟨h.1, h.2.2.1 rfl⟩

